import Mathlib

/-!
Verification of the `co2_lcd` driver (`src/co2_lcd.py`) against its
natural-language specification.

The Python source is shallowly embedded: pure functions become Lean
functions over `Nat` (Python integers are unbounded, so no modular
truncation is needed except where the source masks explicitly), and
I/O-performing methods become functions that return the exact trace of
bus operations they would issue, with bus reads supplied by an oracle
argument.
-/

/-! ## Register codec (`CO2MeterWrapper.get_field` / `set_field`) -/

/-- Embeds `CO2MeterWrapper.get_field` (src/co2_lcd.py lines 538-542).
A field descriptor is the pair `(high_bit, low_bit)`. -/
def get_field (regval : Nat) (field : Nat × Nat) : Nat :=
  let mask := ((1 <<< (1 + field.1 - field.2)) - 1) <<< field.2
  (regval &&& mask) >>> field.2

/-- Embeds `CO2MeterWrapper.set_field` (src/co2_lcd.py lines 544-552).
The Python function asserts `int(log2(fieldval)) + 1 <= width` whenever
`fieldval` is truthy; a failed assertion raises, which is modelled as
`none`.  (The Python assert computes `log2` on floats; for the exact
mathematical `floor (log2)` used here the two agree on all values the
program ever passes.)  The arithmetic on the `some` path is a literal
transcription of the source:
`regval |= mask; regval &= (fieldval << lo) & mask`. -/
def set_field (regval : Nat) (field : Nat × Nat) (fieldval : Nat) : Option Nat :=
  let width := 1 + field.1 - field.2
  if fieldval ≠ 0 ∧ width < Nat.log2 fieldval + 1 then
    none
  else
    let mask := ((1 <<< width) - 1) <<< field.2
    let r1 := regval ||| mask
    some (r1 &&& ((fieldval <<< field.2) &&& mask))

/-! Status-register field descriptors (src/co2_lcd.py lines 453-457). -/

def STATUS_REG_FW_MODE_FIELD : Nat × Nat := (7, 7)

def STATUS_REG_APP_VALID_FIELD : Nat × Nat := (4, 4)

def STATUS_REG_DATA_READY_FIELD : Nat × Nat := (3, 3)

def STATUS_REG_ERROR_FIELD : Nat × Nat := (0, 0)

/-- The assertion guard of `set_field` is equivalent to
`2 ^ width ≤ fieldval`; this reformulation is kernel-computable
(`Nat.log2` is not), so concrete instances of `set_field` can be
evaluated with `decide` after rewriting with this lemma. -/
theorem set_field_guard_eq_pow (regval : Nat) (field : Nat × Nat) (fieldval : Nat) :
    set_field regval field fieldval =
      if 2 ^ (1 + field.1 - field.2) ≤ fieldval then none
      else
        some ((regval ||| ((1 <<< (1 + field.1 - field.2)) - 1) <<< field.2) &&&
          ((fieldval <<< field.2) &&& ((1 <<< (1 + field.1 - field.2)) - 1) <<< field.2)) := by
  simp only [set_field]
  have hiff : (fieldval ≠ 0 ∧ 1 + field.1 - field.2 < Nat.log2 fieldval + 1) ↔
      2 ^ (1 + field.1 - field.2) ≤ fieldval := by
    constructor
    · rintro ⟨h0, hlt⟩
      by_contra hc
      have := (Nat.log2_lt (k := 1 + field.1 - field.2) h0).mpr (by omega)
      omega
    · intro hle
      have h1 : (1 : Nat) ≤ 2 ^ (1 + field.1 - field.2) := Nat.one_le_two_pow
      have h0 : fieldval ≠ 0 := by omega
      refine ⟨h0, ?_⟩
      by_contra hc
      have := (Nat.log2_lt (k := 1 + field.1 - field.2) h0).mp (by omega)
      omega
  exact if_congr hiff rfl rfl

/-- Claim C1 (code_bug evidence): `set_field` does NOT leave bits outside
the field unchanged.  On `regval = 0xFF`, field `(3,0)`, value `5`, the
source's `regval &= (fieldval << lo) & mask` clears bits 4..7, returning
`0x05` where a bit-range-local update would return `0xF5`: bit 7 was 1 in
the input and is 0 in the result. -/
theorem C1_set_field_clears_outside_bits :
    set_field 0xFF (3, 0) 5 = some 0x05 ∧
    Nat.testBit 0xFF 7 = true ∧
    Nat.testBit 0x05 7 = false := by
  rw [set_field_guard_eq_pow]
  exact ⟨by decide, by decide, by decide⟩

/-- Claim C3: for every register value `r`, every field `(hi, lo)` with
`hi ≥ lo`, and every `v` representable in `hi - lo + 1` bits, the
assertion in `set_field` passes and
`get_field (set_field r (hi, lo) v) (hi, lo) = v`. -/
theorem C3_get_field_set_field (r hi lo v : Nat) (hlohi : lo ≤ hi)
    (hv : v < 2 ^ (hi - lo + 1)) :
    (set_field r (hi, lo) v).map (fun s => get_field s (hi, lo)) = some v := by
  have hw : 1 + (hi, lo).1 - (hi, lo).2 = hi - lo + 1 := by simp; omega
  rw [set_field_guard_eq_pow, hw, if_neg (by omega)]
  simp only [Option.map_some', Option.some.injEq]
  unfold get_field
  apply Nat.eq_of_testBit_eq
  intro j
  rw [Nat.testBit_shiftRight]
  simp only [Nat.testBit_and, Nat.testBit_or, Nat.testBit_shiftLeft,
    Nat.one_shiftLeft, Nat.testBit_two_pow_sub_one, hw]
  by_cases hj : j < hi - lo + 1
  · have h1 : lo ≤ lo + j := Nat.le_add_right _ _
    have h2 : lo + j - lo = j := by omega
    simp [h1, h2, hj]
  · have hvj : v.testBit j = false := by
      apply Nat.testBit_lt_two_pow
      calc v < 2 ^ (hi - lo + 1) := hv
        _ ≤ 2 ^ j := Nat.pow_le_pow_right (by omega) (by omega)
    by_cases h1 : lo ≤ lo + j
    · have h2 : lo + j - lo = j := by omega
      simp [h1, h2, hj, hvj]
    · simp [h1, hvj]

/-- Witness for C3 at `r = 0xAB`, field `(7, 4)`, `v = 5`. -/
theorem C3_get_field_set_field_witness :
    (4 ≤ 7 ∧ 5 < 2 ^ (7 - 4 + 1)) ∧
    (set_field 0xAB (7, 4) 5).map (fun s => get_field s (7, 4)) = some 5 :=
  ⟨by decide, C3_get_field_set_field 0xAB 7 4 5 (by decide) (by decide)⟩

/-- Claim C4 (counterexample): decoding status byte `0x90` with the
code's field descriptors gives data-ready `0`, not `1` as the claim
states — `0x90 = 0b10010000` has bit 4 (app-valid) set, not bit 3. -/
theorem C4_status_0x90_data_ready_is_not_one :
    ¬ get_field 0x90 STATUS_REG_DATA_READY_FIELD = 1 := by
  decide

/-- Claim C4 (amended): decoding status byte `0x90` gives
firmware-mode `1`, data-ready `0`, error `0` (and app-valid `1`). -/
theorem C4_status_0x90_decode :
    get_field 0x90 STATUS_REG_FW_MODE_FIELD = 1 ∧
    get_field 0x90 STATUS_REG_DATA_READY_FIELD = 0 ∧
    get_field 0x90 STATUS_REG_ERROR_FIELD = 0 ∧
    get_field 0x90 STATUS_REG_APP_VALID_FIELD = 1 := by
  decide

/-! ## Display protocol driver (`LcdWrapper`, src/co2_lcd.py lines 50-319)

Each call to `SpiWrapper.write(command, data)` or `time.sleep` inside
`LcdWrapper` is recorded as one trace event, in program order. -/

/-- One bus-level action of the display driver: a `SpiWrapper.write` call
(with its optional command byte and optional data payload) or a fixed
delay in milliseconds. -/
inductive SpiEvent where
  | write (command : Option Nat) (data : Option (List Nat))
  | sleep (ms : Nat)
  deriving DecidableEq

/-! Command constants (src/co2_lcd.py lines 51-101). -/

def SWRESET : Nat := 0x01

def SLPOUT : Nat := 0x11

def NORON : Nat := 0x13

def INVOFF : Nat := 0x20

def INVON : Nat := 0x21

def DISPON : Nat := 0x29

def CASET : Nat := 0x2A

def RASET : Nat := 0x2B

def RAMWR : Nat := 0x2C

def COLMOD : Nat := 0x3A

def MADCTL : Nat := 0x36

def FRMCTR1 : Nat := 0xB1

def FRMCTR2 : Nat := 0xB2

def FRMCTR3 : Nat := 0xB3

def INVCTR : Nat := 0xB4

def PWCTR1 : Nat := 0xC0

def PWCTR2 : Nat := 0xC1

def PWCTR3 : Nat := 0xC2

def PWCTR4 : Nat := 0xC3

def PWCTR5 : Nat := 0xC4

def VMCTR1 : Nat := 0xC5

def GMCTRP1 : Nat := 0xE0

def GMCTRN1 : Nat := 0xE1

def COLUMN_SET : Nat := CASET

def PAGE_SET : Nat := RASET

def RAM_WRITE : Nat := RAMWR

def BUFFER_SIZE : Nat := 256

def X_START : Nat := 0

def Y_START : Nat := 0

/-- Embeds `LcdWrapper._encode_pos`: `struct.pack(">HH", x, y)` — two
big-endian 16-bit values (defined for arguments below 2^16, which is all
the program ever passes). -/
def encode_pos (x y : Nat) : List Nat :=
  [(x >>> 8) % 256, x % 256, (y >>> 8) % 256, y % 256]

/-- Embeds `LcdWrapper._encode_pixel`: `struct.pack(">I", color)` — note
the source packs ONE UNSIGNED 32-BIT value, i.e. four bytes per pixel
(defined for `color < 2^32`, which holds for every 16-bit colour the
program uses). -/
def encode_pixel (color : Nat) : List Nat :=
  [(color >>> 24) % 256, (color >>> 16) % 256, (color >>> 8) % 256, color % 256]

/-- Embeds the write path of `LcdWrapper._block` (lines 250-264): one
column-window write, one row-window write, then the RAM-write command
carrying `data` as its payload. -/
def block_write (x0 y0 x1 y1 : Nat) (data : List Nat) : List SpiEvent :=
  [SpiEvent.write (some COLUMN_SET) (some (encode_pos (x0 + X_START) (x1 + X_START))),
   SpiEvent.write (some PAGE_SET) (some (encode_pos (y0 + Y_START) (y1 + Y_START))),
   SpiEvent.write (some RAM_WRITE) (some data)]

/-- Embeds `LcdWrapper.fill_rectangle` (lines 226-244) for a panel of
`W × H` pixels.  The four `min/max` clamps, the `b"0"` argument to
`_block`, the `divmod` chunking by `_BUFFER_SIZE`, and the final
partial-chunk write guarded by the truthiness of `pixel * rest` are
transcribed literally. -/
def fill_rectangle (W H : Nat) (x y w h : Int) (color : Nat) : List SpiEvent :=
  let xc : Int := min ((W : Int) - 1) (max 0 x)
  let yc : Int := min ((H : Int) - 1) (max 0 y)
  let wc : Int := min ((W : Int) - xc) (max 1 w)
  let hc : Int := min ((H : Int) - yc) (max 1 h)
  let xn := xc.toNat
  let yn := yc.toNat
  let wn := wc.toNat
  let hn := hc.toNat
  let chunks := (wn * hn) / BUFFER_SIZE
  let rest := (wn * hn) % BUFFER_SIZE
  let pixel := encode_pixel color
  block_write xn yn (xn + wn - 1) (yn + hn - 1) [0x30]
    ++ List.replicate chunks (SpiEvent.write none (some (List.replicate BUFFER_SIZE pixel).flatten))
    ++ (if (List.replicate rest pixel).flatten ≠ [] then
          [SpiEvent.write none (some (List.replicate rest pixel).flatten)]
        else [])

/-- Claim C2 (code_bug evidence): filling a 1×1 rectangle with colour
0xF800 on the program's 128×160 panel.  The payload streamed under the
RAM-write command is `30 00 00 F8 00`: a stray `0x30` byte (the literal
`b"0"` passed to `_block`) followed by a FOUR-byte `">I"` encoding of the
colour — not the single 2-byte encoding `F8 00` required by the claim
(and by the 16-bit colour mode the driver itself configures via
`COLMOD 0x05`). -/
theorem C2_fill_rectangle_payload_bug :
    fill_rectangle 128 160 0 0 1 1 0xF800 =
      [SpiEvent.write (some COLUMN_SET) (some [0, 0, 0, 0]),
       SpiEvent.write (some PAGE_SET) (some [0, 0, 0, 0]),
       SpiEvent.write (some RAM_WRITE) (some [0x30]),
       SpiEvent.write none (some [0x00, 0x00, 0xF8, 0x00])] ∧
    [0x30, 0x00, 0x00, 0xF8, 0x00] ≠ (List.replicate (1 * 1) [0xF8, 0x00]).flatten := by
  exact ⟨by decide, by decide⟩

/-- ASCII-decimal encoding: embeds Python `str(n).encode()` as used in
`LcdWrapper.init` for the window bounds. -/
def asciiBytes (n : Nat) : List Nat :=
  (Nat.toDigits 10 n).map Char.toNat

/-- Embeds `LcdWrapper.init` (src/co2_lcd.py lines 133-212): the exact
ordered sequence of `SpiWrapper.write` calls and `time.sleep` delays. -/
def lcd_init (width height offset_left offset_top : Nat) (invert : Bool) : List SpiEvent :=
  [SpiEvent.write (some SWRESET) none,
   SpiEvent.sleep 150,
   SpiEvent.write (some SLPOUT) none,
   SpiEvent.sleep 500,
   SpiEvent.write (some FRMCTR1) (some [0x01, 0x2C, 0x2D]),
   SpiEvent.write (some FRMCTR2) (some [0x01, 0x2C, 0x2D]),
   SpiEvent.write (some FRMCTR3) none,
   SpiEvent.write none (some [0x01, 0x2C, 0x2D]),
   SpiEvent.write none (some [0x01, 0x2C, 0x2D]),
   SpiEvent.write (some INVCTR) none,
   SpiEvent.write none (some [0x07]),
   SpiEvent.write (some PWCTR1) none,
   SpiEvent.write none (some [0xA2, 0x02, 0x84]),
   SpiEvent.write (some PWCTR2) none,
   SpiEvent.write none (some [0x0A, 0x00]),
   SpiEvent.write (some PWCTR4) none,
   SpiEvent.write none (some [0x8A, 0x2A]),
   SpiEvent.write (some PWCTR5) none,
   SpiEvent.write none (some [0x8A, 0xEE]),
   SpiEvent.write (some VMCTR1) none,
   SpiEvent.write none (some [0x0E]),
   SpiEvent.write (some (if invert then INVON else INVOFF)) none,
   SpiEvent.write (some MADCTL) none,
   SpiEvent.write none (some [0xC0]),
   SpiEvent.write (some COLMOD) none,
   SpiEvent.write none (some [0x05]),
   SpiEvent.write (some CASET) none,
   SpiEvent.write none (some [0x00]),
   SpiEvent.write none (some (asciiBytes offset_left)),
   SpiEvent.write none (some [0x00]),
   SpiEvent.write none (some (asciiBytes (width + offset_left - 1))),
   SpiEvent.write (some RASET) none,
   SpiEvent.write none (some [0x00]),
   SpiEvent.write none (some (asciiBytes offset_top)),
   SpiEvent.write none (some [0x00]),
   SpiEvent.write none (some (asciiBytes (height + offset_top - 1))),
   SpiEvent.write (some GMCTRP1) none,
   SpiEvent.write none (some [0x02, 0x1c, 0x07, 0x12, 0x37, 0x32, 0x29, 0x2d]),
   SpiEvent.write none (some [0x29, 0x25, 0x2B, 0x39, 0x00, 0x01, 0x03, 0x10]),
   SpiEvent.write (some GMCTRN1) none,
   SpiEvent.write none (some [0x03, 0x1d, 0x07, 0x06, 0x2E, 0x2C, 0x29, 0x2D]),
   SpiEvent.write none (some [0x2E, 0x2E, 0x37, 0x3F, 0x00, 0x00, 0x02, 0x10]),
   SpiEvent.write (some NORON) none,
   SpiEvent.sleep 100,
   SpiEvent.write (some DISPON) none,
   SpiEvent.sleep 100]

/-- The sequence of command bytes issued by a trace, in order. -/
def cmds_of (events : List SpiEvent) : List Nat :=
  events.filterMap fun e =>
    match e with
    | SpiEvent.write (some c) _ => some c
    | _ => none

/-- The sequence of delays of a trace, in order. -/
def delays_of (events : List SpiEvent) : List Nat :=
  events.filterMap fun e =>
    match e with
    | SpiEvent.sleep ms => some ms
    | _ => none

/-- Claim C6 (counterexample): the initialization sequence the claim
describes — which includes writes to all five power-control registers
PWCTR1..PWCTR5 before the voltage-control write — is not the sequence the
code issues: `PWCTR3` (0xC2) never appears in the init trace. -/
def spec_claimed_init_cmds (invert : Bool) : List Nat :=
  [SWRESET, SLPOUT, FRMCTR1, FRMCTR2, FRMCTR3, INVCTR,
   PWCTR1, PWCTR2, PWCTR3, PWCTR4, PWCTR5, VMCTR1,
   if invert then INVON else INVOFF,
   MADCTL, COLMOD, CASET, RASET, GMCTRP1, GMCTRN1, NORON, DISPON]

/-- Claim C6 (counterexample): with the program's parameters
(width 128, height 160, offsets 0, inversion off) the issued command
sequence differs from the claimed one, because the power-control block
writes only four of the five power-control registers: `PWCTR3` (0xC2) is
never issued. -/
theorem C6_init_cmds_ne_claimed :
    cmds_of (lcd_init 128 160 0 0 false) ≠ spec_claimed_init_cmds false ∧
    PWCTR3 ∉ cmds_of (lcd_init 128 160 0 0 false) := by
  exact ⟨by decide, by decide⟩

/-- Claim C6 (amended): for every width, height, offsets and inversion
flag, `init` issues exactly this command order — software reset,
sleep-out, frame-rate control ×3, inversion control, FOUR power-control
writes (PWCTR1, PWCTR2, PWCTR4, PWCTR5 — PWCTR3 is skipped),
voltage-control, inversion on/off per the flag, memory-access-control,
color-mode, column then row address window, two gamma tables,
normal-display-on, display-on — and exactly the four fixed delays
150 ms, 500 ms, 100 ms, 100 ms, placed after the software-reset,
sleep-out, normal-display-on and display-on commands respectively. -/
theorem C6_init_command_order (width height offset_left offset_top : Nat) (invert : Bool) :
    cmds_of (lcd_init width height offset_left offset_top invert) =
      [SWRESET, SLPOUT, FRMCTR1, FRMCTR2, FRMCTR3, INVCTR,
       PWCTR1, PWCTR2, PWCTR4, PWCTR5, VMCTR1,
       if invert then INVON else INVOFF,
       MADCTL, COLMOD, CASET, RASET, GMCTRP1, GMCTRN1, NORON, DISPON] ∧
    delays_of (lcd_init width height offset_left offset_top invert) = [150, 500, 100, 100] := by
  cases invert <;> exact ⟨rfl, rfl⟩

/-- Embeds the write path of `LcdWrapper.pixel` (src/co2_lcd.py lines
275-284) with `color` supplied: the bounds guard performs `_block` only
for in-panel coordinates and the method returns `None` either way.  The
result is the pair (bus trace, returned value). -/
def lcd_pixel_write (W H : Nat) (x y : Int) (color : Nat) : List SpiEvent × Option Nat :=
  if 0 ≤ x ∧ x < (W : Int) ∧ 0 ≤ y ∧ y < (H : Int) then
    (block_write x.toNat y.toNat x.toNat y.toNat (encode_pixel color), none)
  else
    ([], none)

/-- Claim C10: for every coordinate pair outside the panel bounds and
every colour, the single-pixel write performs no bus I/O and returns
`None`.  (The guarded branch contains no raising operation in the
source, so no error is raised either.) -/
theorem C10_pixel_write_out_of_bounds (W H : Nat) (x y : Int) (color : Nat)
    (h : x < 0 ∨ y < 0 ∨ (W : Int) ≤ x ∨ (H : Int) ≤ y) :
    lcd_pixel_write W H x y color = ([], none) := by
  unfold lcd_pixel_write
  rw [if_neg]
  rintro ⟨h1, h2, h3, h4⟩
  omega

/-- Witness for C10 at `(x, y) = (-1, 0)` on the program's 128×160 panel. -/
theorem C10_pixel_write_out_of_bounds_witness :
    ((-1 : Int) < 0 ∨ (0 : Int) < 0 ∨ (128 : Int) ≤ -1 ∨ (160 : Int) ≤ 0) ∧
    lcd_pixel_write 128 160 (-1) 0 0xF800 = ([], none) :=
  ⟨by decide, C10_pixel_write_out_of_bounds 128 160 (-1) 0 0xF800 (by decide)⟩

/-! ## Sensor driver (`CO2MeterWrapper` / `CO2Widget`, src/co2_lcd.py lines 446-689)

I2C bus interactions are recorded as trace events.  Bus reads are
supplied by an oracle `resp : Nat → Nat → Nat` mapping (read-call index,
byte offset within that read) to the byte the external bus returns; the
§6 interface contract guarantees a read of `count` bytes returns exactly
`count` bytes, which the oracle models by being total. -/

/-- One I2C-level action of the sensor driver: a read of `count` bytes
from a register address, a write (optional payload) to an address, or a
fixed settle delay in milliseconds. -/
inductive I2CEvent where
  | rd (addr : Nat) (count : Nat)
  | wr (addr : Nat) (data : Option (List Nat))
  | sleep (ms : Nat)
  deriving DecidableEq

/-! Register addresses and constants (src/co2_lcd.py lines 447-475). -/

def HW_ID_ADDR : Nat := 0x20

def HW_ID_VAL : Nat := 0x81

def STATUS_ADDR : Nat := 0x0

def APP_START_ADDR : Nat := 0xF4

def MEAS_MODE_ADDR : Nat := 0x1

def MEAS_MODE_REG_DRIVE_MODE_FIELD : Nat × Nat := (6, 4)

def DRIVE_MODE_1SEC : Nat := 0x01

def ALG_RESULT_DATA_ADDR : Nat := 0x2

def ERROR_ID_ADDR : Nat := 0xE0

/-- The ways the sensor-facing code can raise: the two explicit
`RuntimeError`s of `CO2Widget` and the `assert` inside `set_field`. -/
inductive CO2Fail where
  | wrong_fw_mode
  | err_bit
  | assert_failed
  deriving DecidableEq

/-- Embeds `CO2MeterWrapper.setmeas_mode` (lines 523-530): reads the
measurement-mode register (the byte read is `regval`), sets the
drive-mode field and writes it back, then sleeps 500 ms.  A failed
`set_field` assertion raises before the write. -/
def setmeas_mode (regval : Nat) (mode : Nat) : List I2CEvent × Option CO2Fail :=
  match set_field regval MEAS_MODE_REG_DRIVE_MODE_FIELD mode with
  | some v => ([I2CEvent.rd MEAS_MODE_ADDR 1,
                I2CEvent.wr MEAS_MODE_ADDR (some [v]),
                I2CEvent.sleep 500], none)
  | none => ([I2CEvent.rd MEAS_MODE_ADDR 1], some CO2Fail.assert_failed)

/-- `set_field` with the drive-mode field and mode 1 always succeeds and
always produces `0x10` — regardless of `regval`, because the C1 bug
clears every bit outside the field. -/
theorem set_field_drive_mode_one (r : Nat) :
    set_field r MEAS_MODE_REG_DRIVE_MODE_FIELD DRIVE_MODE_1SEC = some 0x10 := by
  rw [MEAS_MODE_REG_DRIVE_MODE_FIELD, DRIVE_MODE_1SEC, set_field_guard_eq_pow]
  rw [if_neg (by decide)]
  have h16 : ((1 : Nat) <<< (6, 4).2) &&& ((1 <<< (1 + (6, 4).1 - (6, 4).2)) - 1) <<< (6, 4).2 = 16 := by
    decide
  rw [h16]
  congr 1
  apply Nat.eq_of_testBit_eq
  intro j
  simp only [Nat.testBit_and, Nat.testBit_or]
  by_cases hj : j = 4
  · subst hj
    rw [show Nat.testBit ((1 <<< (1 + (6, 4).1 - (6, 4).2) - 1) <<< (6, 4).2) 4 = true by decide,
      show Nat.testBit 16 4 = true by decide]
    simp
  · have h16j : Nat.testBit 16 j = false := by
      rw [show (16 : Nat) = 2 ^ 4 by norm_num, Nat.testBit_two_pow]
      simpa using fun h => hj h.symm
    simp [h16j]

/-- Embeds the sensor-startup portion of `CO2Widget.__init__`
(src/co2_lcd.py lines 649-663): `check_devid`, `read_status`,
`check_errid`, `set_app_mode` (zero-payload write + 100 ms), a second
`read_status`, the firmware-mode and error-bit verification (the
boolean results of `check_devid` and the first `check_errid` are
discarded by the caller, exactly as in the source), then
`setmeas_mode(DRIVE_MODE_1SEC)`.  Read call indices: 0 = HW_ID,
1 = STATUS, 2 = ERROR_ID, 3 = STATUS, and then 4 = MEAS_MODE or
ERROR_ID depending on the branch. -/
def co2_widget_startup (resp : Nat → Nat → Nat) : List I2CEvent × Option CO2Fail :=
  let pre := [I2CEvent.rd HW_ID_ADDR 1,
              I2CEvent.rd STATUS_ADDR 1,
              I2CEvent.rd ERROR_ID_ADDR 1,
              I2CEvent.wr APP_START_ADDR none,
              I2CEvent.sleep 100,
              I2CEvent.rd STATUS_ADDR 1]
  let status := resp 3 0
  if get_field status STATUS_REG_FW_MODE_FIELD = 0 then
    (pre, some CO2Fail.wrong_fw_mode)
  else if get_field status STATUS_REG_ERROR_FIELD ≠ 0 then
    (pre ++ [I2CEvent.rd ERROR_ID_ADDR 1], some CO2Fail.err_bit)
  else
    let m := setmeas_mode (resp 4 0) DRIVE_MODE_1SEC
    (pre ++ m.1, m.2)

/-- Number of reads of the error-id register in a trace. -/
def count_errid_reads (tr : List I2CEvent) : Nat :=
  (tr.filter fun e => e == I2CEvent.rd ERROR_ID_ADDR 1).length

/-- Claim C7 (counterexample): with a bus whose every read returns 0, the
second `read_status` yields firmware-mode 0, a verification violation.
The startup fails fatally, but WITHOUT decoding the error fields: the
trace ends at the violating status read, and the only error-id read in
the whole trace is the `check_errid` from step 3, before the violation.
This refutes "on violation it decodes and surfaces the error fields and
fails fatally": the error-field decode happens only for the error-bit
violation, not for the firmware-mode violation. -/
theorem C7_fw_violation_fails_without_error_decode :
    (co2_widget_startup fun _ _ => 0).2 = some CO2Fail.wrong_fw_mode ∧
    (co2_widget_startup fun _ _ => 0).1 =
      [I2CEvent.rd HW_ID_ADDR 1,
       I2CEvent.rd STATUS_ADDR 1,
       I2CEvent.rd ERROR_ID_ADDR 1,
       I2CEvent.wr APP_START_ADDR none,
       I2CEvent.sleep 100,
       I2CEvent.rd STATUS_ADDR 1] ∧
    count_errid_reads (co2_widget_startup fun _ _ => 0).1 = 1 := by
  exact ⟨by decide, by decide, by decide⟩

/-- Claim C7 (amended): for every bus behaviour, the startup performs, in
exactly this order: check_device_id, read_status, check_error_id,
enter_application_mode (+100 ms), read_status; then, if the
firmware-mode bit is clear it fails fatally immediately (no error-field
decode); otherwise if the error bit is set it decodes the error fields
(one more error-id read) and fails fatally; otherwise it performs
set_measurement_mode with the fixed 1-second drive mode (read of the
mode register, write of `0x10`, +500 ms) and succeeds. -/
theorem C7_startup_order (resp : Nat → Nat → Nat) :
    co2_widget_startup resp =
      (let pre := [I2CEvent.rd HW_ID_ADDR 1,
                   I2CEvent.rd STATUS_ADDR 1,
                   I2CEvent.rd ERROR_ID_ADDR 1,
                   I2CEvent.wr APP_START_ADDR none,
                   I2CEvent.sleep 100,
                   I2CEvent.rd STATUS_ADDR 1]
       if get_field (resp 3 0) STATUS_REG_FW_MODE_FIELD = 0 then
         (pre, some CO2Fail.wrong_fw_mode)
       else if get_field (resp 3 0) STATUS_REG_ERROR_FIELD ≠ 0 then
         (pre ++ [I2CEvent.rd ERROR_ID_ADDR 1], some CO2Fail.err_bit)
       else
         (pre ++ [I2CEvent.rd MEAS_MODE_ADDR 1,
                  I2CEvent.wr MEAS_MODE_ADDR (some [0x10]),
                  I2CEvent.sleep 500], none)) := by
  unfold co2_widget_startup setmeas_mode
  rw [set_field_drive_mode_one]

/-- The cached measurement pair held by `CO2Widget`
(`self._eco2`, `self._tvoc`). -/
structure CO2State where
  eco2 : Nat
  tvoc : Nat
  deriving DecidableEq

/-- Result of one `CO2Widget.draw` call: the I2C trace, the raise (if
any), the resulting cached values, and the text handed to
`LcdWrapper.draw_text` (`none` when the call raised before rendering). -/
structure CO2DrawOut where
  events : List I2CEvent
  fail : Option CO2Fail
  state : CO2State
  rendered : Option String
  deriving DecidableEq

/-- The label text built by `CO2Widget.draw` (line 676):
`["O ", "N "][has_new_val] + f"eCO2={eco2} ppm, TVOC={tvoc} ppb"`. -/
def co2_text (has_new_val eco2 tvoc : Nat) : String :=
  ["O ", "N "].getD has_new_val "" ++
    "eCO2=" ++ toString eco2 ++ " ppm, TVOC=" ++ toString tvoc ++ " ppb"

/-- Embeds `CO2Widget.draw` (src/co2_lcd.py lines 667-679) together with
`CO2MeterWrapper.read_meas` (lines 532-536).  Read call 0 is the status
register; on error bit set, `check_errid` (one error-id read) runs and
the call raises before any rendering; otherwise, when data-ready is set,
read call 1 is the 4-byte result block decoded as two big-endian 16-bit
values; finally the (possibly unchanged) cached values are rendered. -/
def co2_widget_draw (st : CO2State) (resp : Nat → Nat → Nat) : CO2DrawOut :=
  let status := resp 0 0
  let has_new_val := get_field status STATUS_REG_DATA_READY_FIELD
  if get_field status STATUS_REG_ERROR_FIELD ≠ 0 then
    { events := [I2CEvent.rd STATUS_ADDR 1, I2CEvent.rd ERROR_ID_ADDR 1],
      fail := some CO2Fail.err_bit,
      state := st,
      rendered := none }
  else
    let st' := if has_new_val ≠ 0 then
        { eco2 := (resp 1 0) <<< 8 ||| resp 1 1,
          tvoc := (resp 1 2) <<< 8 ||| resp 1 3 }
      else st
    { events := [I2CEvent.rd STATUS_ADDR 1] ++
        (if has_new_val ≠ 0 then [I2CEvent.rd ALG_RESULT_DATA_ADDR 4] else []),
      fail := none,
      state := st',
      rendered := some (co2_text has_new_val st'.eco2 st'.tvoc) }

/-- Claim C8: every poll reads status first; if the error bit is set it
decodes the error fields and fails without rendering and without
touching the cache; otherwise it never fails, renders exactly the cached
values (updated from the 4-byte measurement when data-ready is set,
unchanged otherwise), so a non-error poll with no new data re-renders
the previous values. -/
theorem C8_co2_poll (st : CO2State) (resp : Nat → Nat → Nat) :
    (get_field (resp 0 0) STATUS_REG_ERROR_FIELD ≠ 0 →
       co2_widget_draw st resp =
         { events := [I2CEvent.rd STATUS_ADDR 1, I2CEvent.rd ERROR_ID_ADDR 1],
           fail := some CO2Fail.err_bit, state := st, rendered := none }) ∧
    (get_field (resp 0 0) STATUS_REG_ERROR_FIELD = 0 →
       (co2_widget_draw st resp).fail = none ∧
       (co2_widget_draw st resp).rendered =
         some (co2_text (get_field (resp 0 0) STATUS_REG_DATA_READY_FIELD)
           (co2_widget_draw st resp).state.eco2
           (co2_widget_draw st resp).state.tvoc) ∧
       (get_field (resp 0 0) STATUS_REG_DATA_READY_FIELD = 0 →
          (co2_widget_draw st resp).state = st) ∧
       (get_field (resp 0 0) STATUS_REG_DATA_READY_FIELD ≠ 0 →
          (co2_widget_draw st resp).state =
            { eco2 := (resp 1 0) <<< 8 ||| resp 1 1,
              tvoc := (resp 1 2) <<< 8 ||| resp 1 3 }) ∧
       (co2_widget_draw st resp).events =
         [I2CEvent.rd STATUS_ADDR 1] ++
           (if get_field (resp 0 0) STATUS_REG_DATA_READY_FIELD ≠ 0 then
             [I2CEvent.rd ALG_RESULT_DATA_ADDR 4] else [])) := by
  constructor
  · intro herr
    unfold co2_widget_draw
    rw [if_pos herr]
  · intro hok
    have hcond : ¬ (get_field (resp 0 0) STATUS_REG_ERROR_FIELD ≠ 0) := fun h => h hok
    unfold co2_widget_draw
    rw [if_neg hcond]
    by_cases hnew : get_field (resp 0 0) STATUS_REG_DATA_READY_FIELD ≠ 0
    · rw [if_pos hnew]
      exact ⟨rfl, rfl, fun h0 => absurd h0 hnew, fun _ => rfl, rfl⟩
    · rw [if_neg hnew]
      exact ⟨rfl, rfl, fun _ => rfl, fun h => absurd h hnew, rfl⟩

/-- Witness for C8, error branch: status byte 1 (error bit set) with
cache `(7, 9)` — the poll fails, renders nothing, and keeps the cache. -/
theorem C8_co2_poll_witness :
    (get_field ((fun _ _ => 1 : Nat → Nat → Nat) 0 0) STATUS_REG_ERROR_FIELD ≠ 0) ∧
    co2_widget_draw ⟨7, 9⟩ (fun _ _ => 1) =
      { events := [I2CEvent.rd STATUS_ADDR 1, I2CEvent.rd ERROR_ID_ADDR 1],
        fail := some CO2Fail.err_bit, state := ⟨7, 9⟩, rendered := none } :=
  ⟨by decide, (C8_co2_poll ⟨7, 9⟩ (fun _ _ => 1)).1 (by decide)⟩

/-! ## Text-bearing widgets (`TextLabel` / `CO2Widget` text setter,
src/co2_lcd.py lines 598-628 and 681-689)

The base class `RectWidget.draw` (line 588) gates on the attribute
`need_redraw`; the `text` setters of `TextLabel` and `CO2Widget`
(identical code, lines 625-628 and 686-689) assign to a DIFFERENT
attribute spelled `_need_redraw`, which no `draw` method ever reads.
The field `u_need_redraw` below models the Python attribute
`_need_redraw` (a leading underscore is avoided in the Lean name). -/

/-- State of a `TextLabel`: absolute bounds, colours, the base-class
dirty flag `need_redraw`, the setter-written flag `_need_redraw`
(modelled as `u_need_redraw`), and the text buffer. -/
structure TextLabelState where
  x0 : Nat
  y0 : Nat
  x1 : Nat
  y1 : Nat
  color : Nat
  font_color : Nat
  need_redraw : Bool
  u_need_redraw : Bool
  text : String
  deriving DecidableEq

/-- Embeds the `TextLabel.text` setter (lines 625-628):
`self._text = value; self._need_redraw = True`.  (The `CO2Widget.text`
setter, lines 686-689, is character-for-character the same code.) -/
def text_set (st : TextLabelState) (value : String) : TextLabelState :=
  { st with text := value, u_need_redraw := true }

/-- A rendering action issued to the LCD: the arguments of a
`LcdWrapper.draw_text` call. -/
inductive RenderEvent where
  | draw_text (text : String) (text_size : Nat) (w h x y font_color bg_color : Nat)
  deriving DecidableEq

/-- Embeds `TextLabel.draw` (lines 615-618): always renders the current
text into the widget's rectangle — it reads no dirty flag and clears no
dirty flag (the widget state is returned unchanged). -/
def textLabel_draw (st : TextLabelState) : List RenderEvent × TextLabelState :=
  ([RenderEvent.draw_text st.text (st.y1 - st.y0 - 1)
      (st.x1 - st.x0) (st.y1 - st.y0) st.x0 st.y0 st.font_color st.color],
   st)

/-- Claim C5 (counterexample): assigning to the text buffer does NOT set
the dirty flag that `RectWidget.draw` gates on.  Starting from a state
whose `need_redraw` is false, the setter leaves `need_redraw` false — it
writes only the differently-named `_need_redraw`, which no draw method
reads. -/
theorem C5_text_set_misses_gated_flag :
    (text_set
      { x0 := 0, y0 := 0, x1 := 128, y1 := 10, color := 0, font_color := 0xFFFFFF,
        need_redraw := false, u_need_redraw := false, text := "a" }
      "b").need_redraw = false := by
  rfl

/-- Claim C5 (amended): for every widget state and every string, the text
setter stores the string and sets the phantom flag `_need_redraw`, while
the base-class flag `need_redraw` that `RectWidget.draw` gates on is
left unchanged; a subsequent `TextLabel.draw` nevertheless redraws the
node with the new text, because it renders unconditionally. -/
theorem C5_text_set_spec (st : TextLabelState) (value : String) :
    (text_set st value).u_need_redraw = true ∧
    (text_set st value).need_redraw = st.need_redraw ∧
    (text_set st value).text = value ∧
    (textLabel_draw (text_set st value)).1 =
      [RenderEvent.draw_text value (st.y1 - st.y0 - 1)
        (st.x1 - st.x0) (st.y1 - st.y0) st.x0 st.y0 st.font_color st.color] := by
  exact ⟨rfl, rfl, rfl, rfl⟩

/-! ## Widget tree (`RectWidget` and subclasses, src/co2_lcd.py lines 559-689)

The tree-wide recursive draw is `RectWidget.draw` (lines 587-592): if
`need_redraw` is set, issue one `fill_rectangle` for the node's own
bounds and clear the flag, then recurse into the children in order.
`TextLabel.draw` and `CO2Widget.draw` override it completely: they
render text (no `fill_rectangle`), read and clear no flag, and do not
recurse.  `CO2Widget.draw` additionally raises when its sensor poll
shows the error bit (claim C8's model); for the fill-count analysis that
per-poll outcome is carried as a boolean on the node, constant across
draws under the claim's no-intervening-mutation assumption.  A Python
exception aborts the remainder of the traversal, which the draw
functions model by an abort flag that skips the rest of the forest.

Node identity (`id`) stands for Python object identity and is used only
to count the `fill_rectangle` calls attributable to a given node. -/

/-- The dynamic kind of a widget node: `base` is a plain `RectWidget`
(draw gates on the dirty flag), `label` a `TextLabel`, and `co2w e` a
`CO2Widget` whose poll raises iff `e`. -/
inductive WKind where
  | base
  | label
  | co2w (err : Bool)
  deriving DecidableEq

mutual
/-- A widget-tree node: identity, kind, the `need_redraw` flag
(`True` at construction, line 582), and its children in registration
order. -/
inductive WTree where
  | node (id : Nat) (kind : WKind) (dirty : Bool) (children : Forest)
/-- A list of sibling widgets (`self._children`, in order). -/
inductive Forest where
  | fnil
  | fcons (t : WTree) (ts : Forest)
end

mutual
/-- Embeds the tree-wide recursive draw.  Returns the updated subtree,
the accumulated ids of nodes for which a `fill_rectangle` was issued
(in issue order, appended to `fills`), and whether a raise aborted the
traversal inside this subtree. -/
def wdraw : WTree → List Nat → WTree × List Nat × Bool
  | WTree.node i WKind.base d cs, fills =>
    let fills1 := if d then fills ++ [i] else fills
    let r := wdraw_forest cs fills1
    (WTree.node i WKind.base false r.1, r.2.1, r.2.2)
  | WTree.node i WKind.label d cs, fills =>
    (WTree.node i WKind.label d cs, fills, false)
  | WTree.node i (WKind.co2w e) d cs, fills =>
    (WTree.node i (WKind.co2w e) d cs, fills, e)
/-- Draws the siblings in order; a raise skips the remaining siblings,
as a propagating Python exception does. -/
def wdraw_forest : Forest → List Nat → Forest × List Nat × Bool
  | Forest.fnil, fills => (Forest.fnil, fills, false)
  | Forest.fcons t ts, fills =>
    let r1 := wdraw t fills
    if r1.2.2 then
      (Forest.fcons r1.1 ts, r1.2.1, true)
    else
      let r2 := wdraw_forest ts r1.2.1
      (Forest.fcons r1.1 r2.1, r2.2.1, r2.2.2)
end

mutual
/-- No `CO2Widget` node in the tree raises on its poll. -/
def no_err : WTree → Bool
  | WTree.node _ WKind.base _ cs => no_err_forest cs
  | WTree.node _ WKind.label _ cs => no_err_forest cs
  | WTree.node _ (WKind.co2w e) _ cs => !e && no_err_forest cs
def no_err_forest : Forest → Bool
  | Forest.fnil => true
  | Forest.fcons t ts => no_err t && no_err_forest ts
end

mutual
/-- Every node's dirty flag is set — the state of a freshly constructed
tree, since `RectWidget.__init__` ends with `self.need_redraw = True`. -/
def all_dirty : WTree → Bool
  | WTree.node _ _ d cs => d && all_dirty_forest cs
def all_dirty_forest : Forest → Bool
  | Forest.fnil => true
  | Forest.fcons t ts => all_dirty t && all_dirty_forest ts
end

mutual
/-- Ids of the `base`-kind nodes the tree-wide draw visits, in preorder.
Children of `label`/`co2w` nodes are excluded because those overridden
`draw` methods do not recurse. -/
def visited_base_ids : WTree → List Nat
  | WTree.node i WKind.base _ cs => i :: visited_base_forest cs
  | WTree.node _ WKind.label _ _ => []
  | WTree.node _ (WKind.co2w _) _ _ => []
def visited_base_forest : Forest → List Nat
  | Forest.fnil => []
  | Forest.fcons t ts => visited_base_ids t ++ visited_base_forest ts
end

mutual
/-- Ids of the visited `base`-kind nodes whose dirty flag is set — the
nodes an abort-free tree-wide draw issues a `fill_rectangle` for. -/
def visited_dirty_base_ids : WTree → List Nat
  | WTree.node i WKind.base d cs =>
    (if d then [i] else []) ++ visited_dirty_base_forest cs
  | WTree.node _ WKind.label _ _ => []
  | WTree.node _ (WKind.co2w _) _ _ => []
def visited_dirty_base_forest : Forest → List Nat
  | Forest.fnil => []
  | Forest.fcons t ts => visited_dirty_base_ids t ++ visited_dirty_base_forest ts
end

mutual
/-- The tree after an abort-free tree-wide draw: visited `base` nodes
have their dirty flag cleared, everything else is untouched. -/
def wclean : WTree → WTree
  | WTree.node i WKind.base _ cs => WTree.node i WKind.base false (wclean_forest cs)
  | WTree.node i WKind.label d cs => WTree.node i WKind.label d cs
  | WTree.node i (WKind.co2w e) d cs => WTree.node i (WKind.co2w e) d cs
def wclean_forest : Forest → Forest
  | Forest.fnil => Forest.fnil
  | Forest.fcons t ts => Forest.fcons (wclean t) (wclean_forest ts)
end

mutual
/-- On an error-free tree a tree-wide draw completes without abort,
fills exactly the visited dirty base nodes in preorder, and leaves the
tree cleaned. -/
theorem wdraw_no_err : ∀ (t : WTree) (fills : List Nat), no_err t = true →
    wdraw t fills = (wclean t, fills ++ visited_dirty_base_ids t, false)
  | WTree.node i WKind.base d cs, fills, h => by
    have hf : no_err_forest cs = true := by simpa [no_err] using h
    have ih := wdraw_forest_no_err cs (if d then fills ++ [i] else fills) hf
    simp only [wdraw, ih, wclean, visited_dirty_base_ids]
    cases d <;> simp
  | WTree.node i WKind.label d cs, fills, h => by
    simp [wdraw, wclean, visited_dirty_base_ids]
  | WTree.node i (WKind.co2w e) d cs, fills, h => by
    have he : e = false := by
      have := h
      simp [no_err] at this
      exact this.1
    subst he
    simp [wdraw, wclean, visited_dirty_base_ids]
theorem wdraw_forest_no_err : ∀ (ts : Forest) (fills : List Nat), no_err_forest ts = true →
    wdraw_forest ts fills = (wclean_forest ts, fills ++ visited_dirty_base_forest ts, false)
  | Forest.fnil, fills, _ => by
    simp [wdraw_forest, wclean_forest, visited_dirty_base_forest]
  | Forest.fcons t ts, fills, h => by
    have ht : no_err t = true := by
      have := h
      simp [no_err_forest] at this
      exact this.1
    have hts : no_err_forest ts = true := by
      have := h
      simp [no_err_forest] at this
      exact this.2
    have ih1 := wdraw_no_err t fills ht
    have ih2 := wdraw_forest_no_err ts (fills ++ visited_dirty_base_ids t) hts
    simp only [wdraw_forest, ih1, ih2, wclean_forest, visited_dirty_base_forest]
    simp [List.append_assoc]
end

mutual
/-- A cleaned tree has no visited dirty base node left. -/
theorem visited_dirty_wclean : ∀ t : WTree, visited_dirty_base_ids (wclean t) = []
  | WTree.node i WKind.base d cs => by
    simp [wclean, visited_dirty_base_ids, visited_dirty_wclean_forest cs]
  | WTree.node i WKind.label d cs => by
    simp [wclean, visited_dirty_base_ids]
  | WTree.node i (WKind.co2w e) d cs => by
    simp [wclean, visited_dirty_base_ids]
theorem visited_dirty_wclean_forest : ∀ ts : Forest,
    visited_dirty_base_forest (wclean_forest ts) = []
  | Forest.fnil => by
    simp [wclean_forest, visited_dirty_base_forest]
  | Forest.fcons t ts => by
    simp [wclean_forest, visited_dirty_base_forest, visited_dirty_wclean t,
      visited_dirty_wclean_forest ts]
end

mutual
/-- Cleaning changes no node kind, hence preserves error-freedom. -/
theorem no_err_wclean : ∀ t : WTree, no_err (wclean t) = no_err t
  | WTree.node i WKind.base d cs => by
    simp [wclean, no_err, no_err_wclean_forest cs]
  | WTree.node i WKind.label d cs => by
    simp [wclean]
  | WTree.node i (WKind.co2w e) d cs => by
    simp [wclean]
theorem no_err_wclean_forest : ∀ ts : Forest,
    no_err_forest (wclean_forest ts) = no_err_forest ts
  | Forest.fnil => by
    simp [wclean_forest]
  | Forest.fcons t ts => by
    simp [wclean_forest, no_err_forest, no_err_wclean t, no_err_wclean_forest ts]
end

mutual
/-- In a fully dirty tree the filled nodes are exactly the visited base
nodes. -/
theorem visited_dirty_of_all_dirty : ∀ t : WTree, all_dirty t = true →
    visited_dirty_base_ids t = visited_base_ids t
  | WTree.node i WKind.base d cs, h => by
    have hd : d = true := by
      have := h
      simp [all_dirty] at this
      exact this.1
    have hf : all_dirty_forest cs = true := by
      have := h
      simp [all_dirty] at this
      exact this.2
    subst hd
    simp [visited_dirty_base_ids, visited_base_ids, visited_dirty_of_all_dirty_forest cs hf]
  | WTree.node i WKind.label d cs, h => by
    simp [visited_dirty_base_ids, visited_base_ids]
  | WTree.node i (WKind.co2w e) d cs, h => by
    simp [visited_dirty_base_ids, visited_base_ids]
theorem visited_dirty_of_all_dirty_forest : ∀ ts : Forest, all_dirty_forest ts = true →
    visited_dirty_base_forest ts = visited_base_forest ts
  | Forest.fnil, _ => by
    simp [visited_dirty_base_forest, visited_base_forest]
  | Forest.fcons t ts, h => by
    have ht : all_dirty t = true := by
      have := h
      simp [all_dirty_forest] at this
      exact this.1
    have hts : all_dirty_forest ts = true := by
      have := h
      simp [all_dirty_forest] at this
      exact this.2
    simp [visited_dirty_base_forest, visited_base_forest,
      visited_dirty_of_all_dirty t ht, visited_dirty_of_all_dirty_forest ts hts]
end

/-- Claim C9: for a freshly constructed tree (every node dirty, distinct
node identities) whose sensor nodes poll without error, and for every
node whose `draw()` gates on the dirty flag (a `base` node the traversal
visits), calling the tree-wide recursive draw twice with no intervening
state mutation issues exactly one `fill_rectangle` for that node during
the first call and zero during the second. -/
theorem C9_draw_twice_fill_counts (t : WTree) (n : Nat)
    (hdirty : all_dirty t = true)
    (herr : no_err t = true)
    (hnodup : (visited_base_ids t).Nodup)
    (hmem : n ∈ visited_base_ids t) :
    ((wdraw t []).2.1).count n = 1 ∧
    ((wdraw (wdraw t []).1 []).2.1).count n = 0 := by
  have h1 := wdraw_no_err t [] herr
  have h2 : (wdraw t []).1 = wclean t := by rw [h1]
  constructor
  · rw [h1]
    simp only [List.nil_append]
    rw [visited_dirty_of_all_dirty t hdirty]
    exact List.count_eq_one_of_mem hnodup hmem
  · rw [h2]
    have h3 := wdraw_no_err (wclean t) [] (by rw [no_err_wclean t]; exact herr)
    rw [h3]
    simp [visited_dirty_wclean t]

/-- The widget tree the program builds (lines 725-728): a base root with
two text labels and one CO2 widget as children, all freshly constructed
(dirty), with an error-free sensor. -/
def sample_tree : WTree :=
  WTree.node 0 WKind.base true
    (Forest.fcons (WTree.node 1 WKind.label true Forest.fnil)
      (Forest.fcons (WTree.node 2 WKind.label true Forest.fnil)
        (Forest.fcons (WTree.node 3 (WKind.co2w false) true Forest.fnil)
          Forest.fnil)))

/-- Witness for C9 on the program's own widget tree, for the root node. -/
theorem C9_draw_twice_fill_counts_witness :
    (all_dirty sample_tree = true ∧ no_err sample_tree = true ∧
     (visited_base_ids sample_tree).Nodup ∧ 0 ∈ visited_base_ids sample_tree) ∧
    ((wdraw sample_tree []).2.1).count 0 = 1 ∧
    ((wdraw (wdraw sample_tree []).1 []).2.1).count 0 = 0 :=
  ⟨⟨by decide, by decide, by decide, by decide⟩,
   C9_draw_twice_fill_counts sample_tree 0 (by decide) (by decide) (by decide) (by decide)⟩
